import Mathlib

/-!
Shallow embedding of `src/leds.c` (ZMK battery/connectivity/layer LED
indicator widget): blink rates, blink work items, the blink renderer
(`led_do_blink`, `led_process_thread`), the three event listeners, and the
boot-time battery/connectivity init thread (`led_init_thread`).

Build-time Kconfig values (`CONFIG_RGBLED_WIDGET_*`) are not part of
`src/`; they are modelled as an explicit `Config` record that every
embedded function takes as a parameter.
-/

namespace LedWidget

/-- `enum blink_rate_t` from `src/leds.c`. The C enumerators take values
0..4 in declaration order; value 0 (`BLINK_OFF`) is the one produced by
zero-initialization of a `struct blink_item`. -/
inductive blink_rate_t where
  | BLINK_OFF
  | BLINK_SLOW
  | BLINK_MEDIUM
  | BLINK_FAST
  | BLINK_FRANTIC
deriving DecidableEq

/-- `struct blink_item` from `src/leds.c`: a blink work item placed on the
message queue. `uint16_t` fields are modelled as `Nat` (no arithmetic is
ever performed on them, so no overflow can occur). -/
structure blink_item where
  rate : blink_rate_t
  duration_ms : Nat
  first_item : Bool
  sleep_ms : Nat
deriving DecidableEq

/-- The value a C designated initializer gives to unmentioned fields of
`struct blink_item`: everything zero, so `rate = BLINK_OFF` (enumerator 0),
`first_item = false`, `duration_ms = sleep_ms = 0`. -/
def blink_item.zeroInit : blink_item :=
  { rate := .BLINK_OFF, duration_ms := 0, first_item := false, sleep_ms := 0 }

/-- Build-time configuration (`CONFIG_RGBLED_WIDGET_*` Kconfig symbols),
fixed at compile time in the real firmware. -/
structure Config where
  output_blink_ms : Nat
  battery_blink_ms : Nat
  layer_blink_ms : Nat
  interval_ms : Nat
  battery_level_critical : Nat
  battery_level_low : Nat
  battery_level_high : Nat
deriving DecidableEq

/-- Observable actions on the single indicator LED, as issued by the
renderer thread: `led_on`/`led_off` driver calls and `k_sleep` delays. -/
inductive led_action where
  | led_on
  | led_off
  | k_sleep (ms : Nat)
deriving DecidableEq

/-- `led_do_blink` from `src/leds.c`, as the trace of LED driver calls and
sleeps it performs. It receives only the rate (the call site passes
`blink.rate`), so the trace cannot depend on `duration_ms`. -/
def led_do_blink : blink_rate_t → List led_action
  | .BLINK_OFF => [.led_off]
  | .BLINK_SLOW => [.led_on, .k_sleep 300, .led_off, .k_sleep 300]
  | .BLINK_MEDIUM => [.led_on, .k_sleep 150, .led_off, .k_sleep 150]
  | .BLINK_FAST => [.led_on, .k_sleep 80, .led_off, .k_sleep 80]
  | .BLINK_FRANTIC => [.led_on, .k_sleep 20, .led_off, .k_sleep 20]

/-- Rendering of one dequeued item, as performed by `led_process_thread`:
`led_do_blink(blink.rate)`. -/
def render (b : blink_item) : List led_action :=
  led_do_blink b.rate

/-- The fixed half-period of each non-Off rate, read off the literal
`k_sleep(K_MSEC(...))` arguments in `led_do_blink`. -/
def half_period : blink_rate_t → Nat
  | .BLINK_OFF => 0
  | .BLINK_SLOW => 300
  | .BLINK_MEDIUM => 150
  | .BLINK_FAST => 80
  | .BLINK_FRANTIC => 20

/-- LED state (`true` = lit) after executing a trace of actions from a
given starting state. -/
def runActions (st : Bool) : List led_action → Bool
  | [] => st
  | .led_on :: rest => runActions true rest
  | .led_off :: rest => runActions false rest
  | .k_sleep _ :: rest => runActions st rest

/-- The idle interval `led_process_thread` sleeps after rendering an item:
`blink.sleep_ms` when positive, else `CONFIG_RGBLED_WIDGET_INTERVAL_MS`. -/
def renderer_gap (cfg : Config) (b : blink_item) : Nat :=
  if b.sleep_ms > 0 then b.sleep_ms else cfg.interval_ms

/-- One iteration of the `led_process_thread` loop body on a dequeued item:
render it, then sleep for the gap. -/
def led_process_step (cfg : Config) (b : blink_item) : List led_action :=
  render b ++ [.k_sleep (renderer_gap cfg b)]

/-- State of the BLE connectivity queries used by `output_blink` in the
central (or non-split) role. -/
structure BleState where
  active_profile_connected : Bool
  active_profile_open : Bool
deriving DecidableEq

/-- `output_blink` from `src/leds.c`, central-role branch
(`!CONFIG_ZMK_SPLIT || CONFIG_ZMK_SPLIT_ROLE_CENTRAL`): the designated
initializer sets only `duration_ms`, leaving `first_item = false` and
`sleep_ms = 0`; then the rate is chosen from the active profile state. -/
def output_blink_central (cfg : Config) (ble : BleState) : blink_item :=
  let rate : blink_rate_t :=
    if ble.active_profile_connected then .BLINK_OFF
    else if ble.active_profile_open then .BLINK_FAST
    else .BLINK_SLOW
  { rate := rate, duration_ms := cfg.output_blink_ms, first_item := false, sleep_ms := 0 }

/-- `output_blink` from `src/leds.c`, peripheral-role branch: the source
sets `BLINK_SLOW` when `zmk_split_bt_peripheral_is_connected()` holds and
`BLINK_FAST` otherwise (the "blinking off" log line notwithstanding). -/
def output_blink_peripheral (cfg : Config) (peripheral_connected : Bool) : blink_item :=
  { rate := if peripheral_connected then .BLINK_SLOW else .BLINK_FAST,
    duration_ms := cfg.output_blink_ms, first_item := false, sleep_ms := 0 }

/-- `led_output_listener_cb` (central role), as the list of items it
enqueues: nothing unless the `initialized` readiness flag (here `ready`)
is already set, else exactly the `output_blink` item. -/
def led_output_listener_cb_central (cfg : Config) (ready : Bool) (ble : BleState) :
    List blink_item :=
  if ready then [output_blink_central cfg ble] else []

/-- `led_output_listener_cb` (peripheral role), as the list of items it
enqueues. -/
def led_output_listener_cb_peripheral (cfg : Config) (ready : Bool)
    (peripheral_connected : Bool) : List blink_item :=
  if ready then [output_blink_peripheral cfg peripheral_connected] else []

/-- Payload of a `zmk_battery_state_changed` event. -/
structure zmk_battery_state_changed where
  state_of_charge : Nat
deriving DecidableEq

/-- `led_battery_listener_cb` from `src/leds.c`, as the list of items it
enqueues: returns early when the readiness flag is unset; otherwise
enqueues one `BLINK_FAST` item exactly when
`0 < level && level <= CONFIG_RGBLED_WIDGET_BATTERY_LEVEL_CRITICAL`. -/
def led_battery_listener_cb (cfg : Config) (ready : Bool)
    (ev : zmk_battery_state_changed) : List blink_item :=
  if !ready then []
  else if 0 < ev.state_of_charge ∧ ev.state_of_charge ≤ cfg.battery_level_critical then
    [{ rate := .BLINK_FAST, duration_ms := cfg.battery_blink_ms,
       first_item := false, sleep_ms := 0 }]
  else []

/-- Payload of a `zmk_layer_state_changed` event (`state = true` for an
activation, `false` for a deactivation). -/
structure zmk_layer_state_changed where
  state : Bool
deriving DecidableEq

/-- The static `blink` item of `led_layer_listener_cb`: `BLINK_FRANTIC`
with `sleep_ms = CONFIG_RGBLED_WIDGET_LAYER_BLINK_MS`. -/
def layer_blink (cfg : Config) : blink_item :=
  { rate := .BLINK_FRANTIC, duration_ms := cfg.layer_blink_ms,
    first_item := false, sleep_ms := cfg.layer_blink_ms }

/-- The static `final_blink` item of `led_layer_listener_cb`:
`BLINK_MEDIUM` with zero-initialized `sleep_ms = 0`. -/
def layer_final_blink (cfg : Config) : blink_item :=
  { rate := .BLINK_MEDIUM, duration_ms := cfg.layer_blink_ms,
    first_item := false, sleep_ms := 0 }

/-- `led_layer_listener_cb` from `src/leds.c`, as the list of items it
enqueues: nothing before readiness, nothing on a deactivation event;
otherwise, with `index = zmk_keymap_highest_layer_active()`, the loop
`for i in 0..index-1` enqueues `blink` while `i < index - 1` and
`final_blink` for the last iteration. -/
def led_layer_listener_cb (cfg : Config) (ready : Bool)
    (ev : zmk_layer_state_changed) (index : Nat) : List blink_item :=
  if !ready then []
  else if !ev.state then []
  else (List.range index).map (fun i =>
    if i < index - 1 then layer_blink cfg else layer_final_blink cfg)

/-- The retry loop of `led_init_thread`:
`while (battery_level == 0 && retry++ < 10) { k_sleep(100); battery_level = read(); }`.
`read i` is the value returned by the `i`-th call of
`zmk_battery_state_of_charge()` (the initial call is `read 0`, the retries
are `read 1` .. `read 10`). Since `retry++ < 10` permits at most 10
iterations, the countdown `remaining` (starting at 10) drives the
recursion; each iteration records one `100` ms delay. Returns the final
`battery_level` and the list of delays slept. -/
def bootRetryAux (read : Nat → Nat) : Nat → Nat → Nat → Nat × List Nat
  | battery_level, _retry, 0 => (battery_level, [])
  | battery_level, retry, remaining + 1 =>
    if battery_level = 0 then
      let rest := bootRetryAux read (read (retry + 1)) (retry + 1) remaining
      (rest.1, 100 :: rest.2)
    else (battery_level, [])

/-- The battery level `led_init_thread` ends the retry loop with. -/
def bootBatteryLevel (read : Nat → Nat) : Nat :=
  (bootRetryAux read (read 0) 0 10).1

/-- The list of inter-attempt delays the retry loop sleeps. -/
def bootRetryDelays (read : Nat → Nat) : List Nat :=
  (bootRetryAux read (read 0) 0 10).2

/-- The rate the battery step of `led_init_thread` assigns for a final
battery level: the if/else chain on `battery_level`; the low-but-nonzero
`else` branch only logs (the `blink.color = LED_RED` line is commented
out in the source), so the rate keeps the zero-initialized value
`BLINK_OFF` the designated initializer gave it. -/
def bootBatteryRate (cfg : Config) (battery_level : Nat) : blink_rate_t :=
  if battery_level = 0 then .BLINK_OFF
  else if cfg.battery_level_high ≤ battery_level then .BLINK_SLOW
  else if cfg.battery_level_low ≤ battery_level then .BLINK_FAST
  else .BLINK_OFF

/-- The single blink item built by the battery step of `led_init_thread`:
the initializer sets `duration_ms` and `first_item = true` (leaving
`rate` and `sleep_ms` zero-initialized), then the if/else chain on the
final battery level sets the rate. -/
def bootBatteryItem (cfg : Config) (read : Nat → Nat) : blink_item :=
  { rate := bootBatteryRate cfg (bootBatteryLevel read),
    duration_ms := cfg.battery_blink_ms, first_item := true, sleep_ms := 0 }

/-- The battery step of `led_init_thread` performs exactly one
`k_msgq_put`, of `bootBatteryItem`. -/
def bootBatteryEnqueues (cfg : Config) (read : Nat → Nat) : List blink_item :=
  [bootBatteryItem cfg read]

/-- The capacity declared for the blink queue in `src/leds.c`:
`K_MSGQ_DEFINE(led_msgq, sizeof(struct blink_item), 16, 1)`. -/
def led_msgq_capacity : Nat := 16

/-- Modelled from the spec: the put/get implementation behind `led_msgq`
lives in the Zephyr kernel, not in this repository; only the declaration
(capacity 16) is in `src/leds.c`. Per the spec, `try_enqueue` is the
non-blocking `k_msgq_put(..., K_NO_WAIT)`: it appends to the FIFO and
accepts when fewer than 16 items are pending, and rejects (discarding the
new item, leaving the queue untouched) when the queue is full. The queue
is the list of pending items, oldest first. -/
def try_enqueue (q : List blink_item) (b : blink_item) : Bool × List blink_item :=
  if q.length < led_msgq_capacity then (true, q ++ [b]) else (false, q)

/-- A concrete configuration for instantiating theorems (values of the
order of the widget's Kconfig defaults). -/
def cfg0 : Config :=
  { output_blink_ms := 500, battery_blink_ms := 1000, layer_blink_ms := 100,
    interval_ms := 250, battery_level_critical := 5,
    battery_level_low := 20, battery_level_high := 80 }

/-- A battery-read trace that always returns 10 (low but nonzero). -/
def readLow : Nat → Nat := fun _ => 10

/-- A battery-read trace that returns 0 on attempts 0..9 and 50 on
attempt 10. -/
def read50 : Nat → Nat := fun i => if i ≤ 9 then 0 else 50

/-- A battery-read trace that always returns 0. -/
def readZero : Nat → Nat := fun _ => 0

/-- C1: for every BlinkRate other than Off, `render(rate)` produces exactly
one on-pulse followed by one off-pulse, each lasting that rate's fixed
half-period (Slow=300ms, Medium=150ms, Fast=80ms, Frantic=20ms),
independent of the request's `duration_ms` field; `render(Off)` turns the
light off immediately with no pulses and no sleeps. -/
theorem C1_render_pulses (r : blink_rate_t) (b b' : blink_item) :
    (r ≠ .BLINK_OFF →
      led_do_blink r =
        [.led_on, .k_sleep (half_period r), .led_off, .k_sleep (half_period r)]) ∧
    half_period .BLINK_SLOW = 300 ∧ half_period .BLINK_MEDIUM = 150 ∧
    half_period .BLINK_FAST = 80 ∧ half_period .BLINK_FRANTIC = 20 ∧
    (b.rate = b'.rate → render b = render b') ∧
    led_do_blink .BLINK_OFF = [.led_off] := by
  refine ⟨?_, rfl, rfl, rfl, rfl, ?_, rfl⟩
  · intro h
    cases r with
    | BLINK_OFF => exact absurd rfl h
    | BLINK_SLOW => rfl
    | BLINK_MEDIUM => rfl
    | BLINK_FAST => rfl
    | BLINK_FRANTIC => rfl
  · intro h
    simp [render, h]

/-- Witness for C1 at the concrete rate Fast and two items differing in
every field but the rate. -/
theorem C1_render_pulses_witness :
    led_do_blink .BLINK_FAST =
      [.led_on, .k_sleep (half_period .BLINK_FAST), .led_off,
       .k_sleep (half_period .BLINK_FAST)] ∧
    render { rate := .BLINK_FAST, duration_ms := 7, first_item := false, sleep_ms := 0 } =
      render { rate := .BLINK_FAST, duration_ms := 9999, first_item := true, sleep_ms := 3 } :=
  ⟨(C1_render_pulses .BLINK_FAST blink_item.zeroInit blink_item.zeroInit).1 (by decide),
   (C1_render_pulses .BLINK_FAST
      { rate := .BLINK_FAST, duration_ms := 7, first_item := false, sleep_ms := 0 }
      { rate := .BLINK_FAST, duration_ms := 9999, first_item := true, sleep_ms := 3
      }).2.2.2.2.2.1 rfl⟩

/-- C4: for every event of any of the three kinds, if the readiness flag
is still false when the mapper runs, the mapper enqueues nothing,
regardless of the event's content. -/
theorem C4_not_ready_no_enqueue (cfg : Config) (ble : BleState) (pc : Bool)
    (bev : zmk_battery_state_changed) (lev : zmk_layer_state_changed) (index : Nat) :
    led_output_listener_cb_central cfg false ble = [] ∧
    led_output_listener_cb_peripheral cfg false pc = [] ∧
    led_battery_listener_cb cfg false bev = [] ∧
    led_layer_listener_cb cfg false lev index = [] :=
  ⟨rfl, rfl, rfl, rfl⟩

/-- C5: for every connectivity event received while ready, the
Connectivity Mapper enqueues exactly one request whose rate is: central
role — Off if the active profile is connected, Fast if it is
open/unpaired, Slow otherwise; peripheral role — Slow if linked to the
central and Fast if not. -/
theorem C5_connectivity_mapper (cfg : Config) (ble : BleState) (pc : Bool) :
    led_output_listener_cb_central cfg true ble = [output_blink_central cfg ble] ∧
    led_output_listener_cb_peripheral cfg true pc = [output_blink_peripheral cfg pc] ∧
    (ble.active_profile_connected = true →
      (output_blink_central cfg ble).rate = .BLINK_OFF) ∧
    (ble.active_profile_connected = false → ble.active_profile_open = true →
      (output_blink_central cfg ble).rate = .BLINK_FAST) ∧
    (ble.active_profile_connected = false → ble.active_profile_open = false →
      (output_blink_central cfg ble).rate = .BLINK_SLOW) ∧
    (pc = true → (output_blink_peripheral cfg pc).rate = .BLINK_SLOW) ∧
    (pc = false → (output_blink_peripheral cfg pc).rate = .BLINK_FAST) := by
  refine ⟨rfl, rfl, ?_, ?_, ?_, ?_, ?_⟩ <;>
    intros <;> simp_all [output_blink_central, output_blink_peripheral]

/-- Witness for C5: a connected central profile blinks Off; an unlinked
peripheral blinks Fast. -/
theorem C5_connectivity_mapper_witness :
    (output_blink_central cfg0
      { active_profile_connected := true, active_profile_open := false }).rate = .BLINK_OFF ∧
    (output_blink_peripheral cfg0 false).rate = .BLINK_FAST :=
  ⟨(C5_connectivity_mapper cfg0
      { active_profile_connected := true, active_profile_open := false } false).2.2.1 rfl,
   (C5_connectivity_mapper cfg0
      { active_profile_connected := true, active_profile_open := false } false).2.2.2.2.2.2 rfl⟩

/-- C6: for every battery event received while ready carrying charge level
L: if L = 0 or L > critical_threshold the Battery Mapper enqueues nothing;
if 0 < L <= critical_threshold it enqueues exactly one Fast request. -/
theorem C6_battery_mapper (cfg : Config) (ev : zmk_battery_state_changed) :
    (ev.state_of_charge = 0 → led_battery_listener_cb cfg true ev = []) ∧
    (cfg.battery_level_critical < ev.state_of_charge →
      led_battery_listener_cb cfg true ev = []) ∧
    (0 < ev.state_of_charge → ev.state_of_charge ≤ cfg.battery_level_critical →
      led_battery_listener_cb cfg true ev =
        [{ rate := .BLINK_FAST, duration_ms := cfg.battery_blink_ms,
           first_item := false, sleep_ms := 0 }]) := by
  refine ⟨?_, ?_, ?_⟩
  · intro h
    simp [led_battery_listener_cb, h]
  · intro h
    have hne : ¬ (0 < ev.state_of_charge ∧ ev.state_of_charge ≤ cfg.battery_level_critical) := by
      omega
    simp [led_battery_listener_cb, hne]
  · intro h1 h2
    simp [led_battery_listener_cb, h1, h2]

/-- Witness for C6: level 3 with critical threshold 5 enqueues exactly one
Fast request; level 50 enqueues nothing. -/
theorem C6_battery_mapper_witness :
    led_battery_listener_cb cfg0 true { state_of_charge := 3 } =
      [{ rate := .BLINK_FAST, duration_ms := cfg0.battery_blink_ms,
         first_item := false, sleep_ms := 0 }] ∧
    led_battery_listener_cb cfg0 true { state_of_charge := 50 } = [] :=
  ⟨(C6_battery_mapper cfg0 { state_of_charge := 3 }).2.2 (by decide) (by decide),
   (C6_battery_mapper cfg0 { state_of_charge := 50 }).2.1 (by decide)⟩

/-- C9: after rendering a dequeued request, the Renderer idles for exactly
`sleep_ms` when that field is nonzero, and for the configured default
inter-request gap (`CONFIG_RGBLED_WIDGET_INTERVAL_MS`) when it is 0. -/
theorem C9_renderer_gap (cfg : Config) (b : blink_item) :
    led_process_step cfg b = render b ++ [.k_sleep (renderer_gap cfg b)] ∧
    (0 < b.sleep_ms → renderer_gap cfg b = b.sleep_ms) ∧
    (b.sleep_ms = 0 → renderer_gap cfg b = cfg.interval_ms) := by
  refine ⟨rfl, ?_, ?_⟩ <;> intro h <;> simp [renderer_gap, h]

/-- Witness for C9: a request with `sleep_ms = 5` idles 5 ms; one with
`sleep_ms = 0` idles the default gap. -/
theorem C9_renderer_gap_witness :
    renderer_gap cfg0
      { rate := .BLINK_FAST, duration_ms := 1, first_item := false, sleep_ms := 5 } = 5 ∧
    renderer_gap cfg0 blink_item.zeroInit = cfg0.interval_ms :=
  ⟨(C9_renderer_gap cfg0
      { rate := .BLINK_FAST, duration_ms := 1, first_item := false, sleep_ms := 5 }).2.1
      (by decide),
   (C9_renderer_gap cfg0 blink_item.zeroInit).2.2 rfl⟩

/-- C8: the queue holds at most 16 requests; an enqueue attempted on a
queue already holding 16 pending items is not accepted, the new request is
discarded, and the queue's contents and FIFO order are unchanged. -/
theorem C8_queue_overflow (q : List blink_item) (b : blink_item) :
    (q.length = 16 → (try_enqueue q b).1 = false ∧ (try_enqueue q b).2 = q) ∧
    (q.length ≤ 16 → ((try_enqueue q b).2).length ≤ 16) := by
  constructor
  · intro h
    have hfull : ¬ q.length < led_msgq_capacity := by
      simp [led_msgq_capacity]
      omega
    simp [try_enqueue, hfull]
  · intro h
    by_cases hlt : q.length < led_msgq_capacity
    · have h16 : q.length < 16 := by simpa [led_msgq_capacity] using hlt
      simp [try_enqueue, hlt]
      omega
    · simp [try_enqueue, hlt]
      omega

/-- Witness for C8: enqueueing onto a queue of 16 items is rejected and
leaves the queue unchanged. -/
theorem C8_queue_overflow_witness :
    (try_enqueue (List.replicate 16 blink_item.zeroInit) blink_item.zeroInit).1 = false ∧
    (try_enqueue (List.replicate 16 blink_item.zeroInit) blink_item.zeroInit).2 =
      List.replicate 16 blink_item.zeroInit :=
  (C8_queue_overflow (List.replicate 16 blink_item.zeroInit) blink_item.zeroInit).1
    (by simp)

/-- C2: for every boot-time battery reading with `0 < r < low_threshold`
(low battery but above zero), the battery step of the Boot Sequencer maps
it to the zero-initialized rate `BLINK_OFF`; rendering that request never
turns the light on and leaves an off light off — no visual change. -/
theorem C2_boot_low_battery_unindicated (cfg : Config) (read : Nat → Nat)
    (hpos : 0 < bootBatteryLevel read)
    (hlow : bootBatteryLevel read < cfg.battery_level_low)
    (hcfg : cfg.battery_level_low ≤ cfg.battery_level_high) :
    (bootBatteryItem cfg read).rate = .BLINK_OFF ∧
    led_action.led_on ∉ render (bootBatteryItem cfg read) ∧
    runActions false (render (bootBatteryItem cfg read)) = false := by
  have h0 : ¬ bootBatteryLevel read = 0 := by omega
  have h1 : ¬ cfg.battery_level_high ≤ bootBatteryLevel read := by omega
  have h2 : ¬ cfg.battery_level_low ≤ bootBatteryLevel read := by omega
  have hrate : (bootBatteryItem cfg read).rate = .BLINK_OFF := by
    simp [bootBatteryItem, bootBatteryRate, h0, h1, h2]
  refine ⟨hrate, ?_, ?_⟩ <;> simp [render, hrate, led_do_blink, runActions]

/-- Witness for C2: a constant reading of 10 with thresholds low=20,
high=80 yields the Off rate. -/
theorem C2_boot_low_battery_unindicated_witness :
    0 < bootBatteryLevel readLow ∧ bootBatteryLevel readLow < cfg0.battery_level_low ∧
    (bootBatteryItem cfg0 readLow).rate = .BLINK_OFF :=
  ⟨by decide, by decide,
   (C2_boot_low_battery_unindicated cfg0 readLow (by decide) (by decide) (by decide)).1⟩

/-- Every delay recorded by the boot retry loop is 100 ms, and there are
at most `remaining` of them. -/
theorem bootRetryAux_delay_spec (read : Nat → Nat) :
    ∀ (remaining battery_level retry : Nat),
      (∀ d ∈ (bootRetryAux read battery_level retry remaining).2, d = 100) ∧
      (bootRetryAux read battery_level retry remaining).2.length ≤ remaining
  | 0, level, retry => by simp [bootRetryAux]
  | n + 1, level, retry => by
    by_cases h : level = 0
    · subst h
      have ih := bootRetryAux_delay_spec read n (read (retry + 1)) (retry + 1)
      constructor
      · intro d hd
        have hd2 : d = 100 ∨ d ∈ (bootRetryAux read (read (retry + 1)) (retry + 1) n).2 := by
          simpa [bootRetryAux] using hd
        rcases hd2 with rfl | hd2
        · rfl
        · exact ih.1 d hd2
      · have hlen : (bootRetryAux read 0 retry (n + 1)).2.length =
            (bootRetryAux read (read (retry + 1)) (retry + 1) n).2.length + 1 := by
          simp [bootRetryAux]
        have h2 := ih.2
        omega
    · simp [bootRetryAux, h]

/-- If every read up to the retry budget returns 0, the loop ends with 0. -/
theorem bootRetryAux_all_zero (read : Nat → Nat) :
    ∀ (remaining retry : Nat), (∀ i, i ≤ retry + remaining → read i = 0) →
      (bootRetryAux read 0 retry remaining).1 = 0
  | 0, _, _ => rfl
  | n + 1, retry, h => by
    have hr : read (retry + 1) = 0 := h (retry + 1) (by omega)
    have step : (bootRetryAux read 0 retry (n + 1)).1 =
        (bootRetryAux read (read (retry + 1)) (retry + 1) n).1 := by
      simp [bootRetryAux]
    rw [step, hr]
    exact bootRetryAux_all_zero read n (retry + 1) (fun i hi => h i (by omega))

/-- One unfolding step of the retry loop when the current level is 0. -/
theorem bootRetryAux_step_zero (read : Nat → Nat) (retry n : Nat) :
    (bootRetryAux read 0 retry (n + 1)).1 =
      (bootRetryAux read (read (retry + 1)) (retry + 1) n).1 := by
  simp [bootRetryAux]

/-- If attempts 0..9 read 0 and attempt 10 reads 50, the retry loop of
`led_init_thread` ends with level 50. -/
theorem bootBatteryLevel_last_attempt (read : Nat → Nat)
    (h9 : ∀ i, i ≤ 9 → read i = 0) (h10 : read 10 = 50) :
    bootBatteryLevel read = 50 := by
  have e0 := h9 0 (by omega)
  have e1 := h9 1 (by omega)
  have e2 := h9 2 (by omega)
  have e3 := h9 3 (by omega)
  have e4 := h9 4 (by omega)
  have e5 := h9 5 (by omega)
  have e6 := h9 6 (by omega)
  have e7 := h9 7 (by omega)
  have e8 := h9 8 (by omega)
  have e9 := h9 9 (by omega)
  have s : bootBatteryLevel read = (bootRetryAux read (read 0) 0 10).1 := rfl
  rw [s, e0, bootRetryAux_step_zero, e1, bootRetryAux_step_zero, e2,
    bootRetryAux_step_zero, e3, bootRetryAux_step_zero, e4, bootRetryAux_step_zero, e5,
    bootRetryAux_step_zero, e6, bootRetryAux_step_zero, e7, bootRetryAux_step_zero, e8,
    bootRetryAux_step_zero, e9, bootRetryAux_step_zero, h10]
  rfl

/-- C3: the Boot Sequencer reads the battery and, while it reads 0,
retries up to 10 times with a 100ms delay between attempts; it then
enqueues exactly one request with `first_item = true` whose rate maps the
last reading (0 → Off, >= high → Slow, >= low → Fast). If attempts 0..9
read 0 and attempt 10 reads 50, the enqueued rate reflects level 50 and is
not Off; if every attempt reads 0, the rate is Off. -/
theorem C3_boot_battery_retry (cfg : Config) (read : Nat → Nat) :
    bootBatteryEnqueues cfg read = [bootBatteryItem cfg read] ∧
    (bootBatteryItem cfg read).first_item = true ∧
    (∀ d ∈ bootRetryDelays read, d = 100) ∧
    (bootRetryDelays read).length ≤ 10 ∧
    (bootBatteryLevel read = 0 → (bootBatteryItem cfg read).rate = .BLINK_OFF) ∧
    (0 < bootBatteryLevel read → cfg.battery_level_high ≤ bootBatteryLevel read →
      (bootBatteryItem cfg read).rate = .BLINK_SLOW) ∧
    (0 < bootBatteryLevel read → cfg.battery_level_low ≤ bootBatteryLevel read →
      bootBatteryLevel read < cfg.battery_level_high →
      (bootBatteryItem cfg read).rate = .BLINK_FAST) ∧
    ((∀ i, i ≤ 9 → read i = 0) → read 10 = 50 → cfg.battery_level_low ≤ 50 →
      bootBatteryLevel read = 50 ∧ (bootBatteryItem cfg read).rate ≠ .BLINK_OFF) ∧
    ((∀ i, i ≤ 10 → read i = 0) → (bootBatteryItem cfg read).rate = .BLINK_OFF) := by
  refine ⟨rfl, rfl, (bootRetryAux_delay_spec read 10 (read 0) 0).1,
    (bootRetryAux_delay_spec read 10 (read 0) 0).2, ?_, ?_, ?_, ?_, ?_⟩
  · intro h
    simp [bootBatteryItem, bootBatteryRate, h]
  · intro h1 h2
    have h0 : ¬ bootBatteryLevel read = 0 := by omega
    simp [bootBatteryItem, bootBatteryRate, h0, h2]
  · intro h1 h2 h3
    have h0 : ¬ bootBatteryLevel read = 0 := by omega
    have hh : ¬ cfg.battery_level_high ≤ bootBatteryLevel read := by omega
    simp [bootBatteryItem, bootBatteryRate, h0, hh, h2]
  · intro h9 h10 hlow
    have hl := bootBatteryLevel_last_attempt read h9 h10
    refine ⟨hl, ?_⟩
    by_cases hh : cfg.battery_level_high ≤ 50 <;>
      simp [bootBatteryItem, bootBatteryRate, hl, hh, hlow]
  · intro h
    have hz : bootBatteryLevel read = 0 := by
      have s : bootBatteryLevel read = (bootRetryAux read (read 0) 0 10).1 := rfl
      rw [s, h 0 (by omega)]
      exact bootRetryAux_all_zero read 10 0 (fun i hi => h i (by omega))
    simp [bootBatteryItem, bootBatteryRate, hz]

/-- Witness for C3: the read trace 0,..,0,50 with thresholds low=20,
high=80 ends at level 50 with a non-Off rate. -/
theorem C3_boot_battery_retry_witness :
    bootBatteryLevel read50 = 50 ∧ (bootBatteryItem cfg0 read50).rate ≠ .BLINK_OFF := by
  have h9 : ∀ i, i ≤ 9 → read50 i = 0 := by
    intro i hi
    simp [read50, hi]
  exact (C3_boot_battery_retry cfg0 read50).2.2.2.2.2.2.2.1 h9 rfl (by decide)

/-- Mapping the loop body of `led_layer_listener_cb` over `0..n` yields
`n` copies of the first item followed by the final item. -/
theorem range_map_split {α : Type} (a b : α) (n : Nat) :
    (List.range (n + 1)).map (fun i => if i < n then a else b) =
      List.replicate n a ++ [b] := by
  have h1 : ∀ k, k ≤ n → (List.range k).map (fun i => if i < n then a else b) =
      List.replicate k a := by
    intro k
    induction k with
    | zero => intro _; rfl
    | succ m ih =>
      intro hk
      have hm : m < n := by omega
      rw [List.range_succ, List.map_append, ih (by omega), List.replicate_succ']
      simp [hm]
  rw [List.range_succ, List.map_append, h1 n (Nat.le_refl n)]
  simp

/-- Every item the layer listener's loop produces has `first_item = false`. -/
theorem layer_items_not_first (cfg : Config) (index : Nat) (b : blink_item)
    (hb : b ∈ (List.range index).map
      (fun i => if i < index - 1 then layer_blink cfg else layer_final_blink cfg)) :
    b.first_item = false := by
  rw [List.mem_map] at hb
  obtain ⟨i, _, hib⟩ := hb
  by_cases h2 : i < index - 1
  · rw [if_pos h2] at hib
    subst hib
    rfl
  · rw [if_neg h2] at hib
    subst hib
    rfl

/-- C7: for every layer event received while ready, a deactivation event
enqueues nothing; an activation event with highest active layer index `n`
enqueues exactly `n` requests in order — the first `n-1` with rate Frantic
and `sleep_ms = layer_blink_ms`, the final one with rate Medium and the
default gap (`sleep_ms = 0`) — and nothing when `n = 0`. -/
theorem C7_layer_mapper (cfg : Config) (ev : zmk_layer_state_changed) (index : Nat) :
    (ev.state = false → led_layer_listener_cb cfg true ev index = []) ∧
    led_layer_listener_cb cfg true ev 0 = [] ∧
    (ev.state = true → 0 < index →
      led_layer_listener_cb cfg true ev index =
        List.replicate (index - 1) (layer_blink cfg) ++ [layer_final_blink cfg]) ∧
    (ev.state = true → (led_layer_listener_cb cfg true ev index).length = index) ∧
    (layer_blink cfg).rate = .BLINK_FRANTIC ∧
    (layer_blink cfg).sleep_ms = cfg.layer_blink_ms ∧
    (layer_final_blink cfg).rate = .BLINK_MEDIUM ∧
    (layer_final_blink cfg).sleep_ms = 0 := by
  have key : ev.state = true → 0 < index →
      led_layer_listener_cb cfg true ev index =
        List.replicate (index - 1) (layer_blink cfg) ++ [layer_final_blink cfg] := by
    intro hs hpos
    obtain ⟨m, rfl⟩ : ∃ m, index = m + 1 := ⟨index - 1, by omega⟩
    simp only [led_layer_listener_cb, hs, Bool.not_true, Bool.false_eq_true, if_false,
      Nat.add_sub_cancel]
    exact range_map_split (layer_blink cfg) (layer_final_blink cfg) m
  refine ⟨?_, ?_, key, ?_, rfl, rfl, rfl, rfl⟩
  · intro hs
    simp [led_layer_listener_cb, hs]
  · cases hs : ev.state <;> simp [led_layer_listener_cb, hs]
  · intro hs
    cases index with
    | zero => simp [led_layer_listener_cb, hs]
    | succ m =>
      rw [key hs (by omega)]
      simp

/-- Witness for C7: an activation event at highest layer 3 enqueues
Frantic, Frantic, Medium. -/
theorem C7_layer_mapper_witness :
    led_layer_listener_cb cfg0 true { state := true } 3 =
      List.replicate 2 (layer_blink cfg0) ++ [layer_final_blink cfg0] :=
  (C7_layer_mapper cfg0 { state := true } 3).2.2.1 rfl (by decide)

/-- C10: every request enqueued by the Connectivity Mapper or the Battery
Mapper has `sleep_ms = 0` and `first_item = false` (so the Renderer
applies the default inter-request gap to it); the layer items also carry
`first_item = false`, and only the Boot Sequencer's battery indication has
`first_item = true`. -/
theorem C10_mapper_flags (cfg : Config) (ready : Bool) (ble : BleState) (pc : Bool)
    (bev : zmk_battery_state_changed) (lev : zmk_layer_state_changed) (index : Nat)
    (read : Nat → Nat) :
    (∀ b ∈ led_output_listener_cb_central cfg ready ble,
      b.sleep_ms = 0 ∧ b.first_item = false ∧ renderer_gap cfg b = cfg.interval_ms) ∧
    (∀ b ∈ led_output_listener_cb_peripheral cfg ready pc,
      b.sleep_ms = 0 ∧ b.first_item = false ∧ renderer_gap cfg b = cfg.interval_ms) ∧
    (∀ b ∈ led_battery_listener_cb cfg ready bev,
      b.sleep_ms = 0 ∧ b.first_item = false ∧ renderer_gap cfg b = cfg.interval_ms) ∧
    (∀ b ∈ led_layer_listener_cb cfg ready lev index, b.first_item = false) ∧
    (bootBatteryItem cfg read).first_item = true ∧
    (bootBatteryItem cfg read).sleep_ms = 0 := by
  refine ⟨?_, ?_, ?_, ?_, rfl, rfl⟩
  · intro b hb
    cases ready with
    | false => simp [led_output_listener_cb_central] at hb
    | true =>
      have hb2 : b = output_blink_central cfg ble := by
        simpa [led_output_listener_cb_central] using hb
      subst hb2
      exact ⟨rfl, rfl, rfl⟩
  · intro b hb
    cases ready with
    | false => simp [led_output_listener_cb_peripheral] at hb
    | true =>
      have hb2 : b = output_blink_peripheral cfg pc := by
        simpa [led_output_listener_cb_peripheral] using hb
      subst hb2
      exact ⟨rfl, rfl, rfl⟩
  · intro b hb
    cases ready with
    | false => simp [led_battery_listener_cb] at hb
    | true =>
      by_cases hc : 0 < bev.state_of_charge ∧
          bev.state_of_charge ≤ cfg.battery_level_critical
      · have hb2 : b =
            { rate := .BLINK_FAST, duration_ms := cfg.battery_blink_ms,
              first_item := false, sleep_ms := 0 } := by
          simpa [led_battery_listener_cb, hc] using hb
        subst hb2
        exact ⟨rfl, rfl, rfl⟩
      · simp [led_battery_listener_cb, hc] at hb
  · intro b hb
    cases ready with
    | false => simp [led_layer_listener_cb] at hb
    | true =>
      cases hs : lev.state with
      | false => simp [led_layer_listener_cb, hs] at hb
      | true =>
        have hb2 : b ∈ (List.range index).map
            (fun i => if i < index - 1 then layer_blink cfg else layer_final_blink cfg) := by
          simpa [led_layer_listener_cb, hs] using hb
        exact layer_items_not_first cfg index b hb2

/-- Witness for C10: the connectivity item of a connected central profile
has no custom gap, is not the first item, and gets the default gap. -/
theorem C10_mapper_flags_witness :
    (output_blink_central cfg0
      { active_profile_connected := true, active_profile_open := false }).sleep_ms = 0 ∧
    (output_blink_central cfg0
      { active_profile_connected := true, active_profile_open := false }).first_item = false ∧
    renderer_gap cfg0 (output_blink_central cfg0
      { active_profile_connected := true, active_profile_open := false }) = cfg0.interval_ms :=
  (C10_mapper_flags cfg0 true
    { active_profile_connected := true, active_profile_open := false } false
    { state_of_charge := 3 } { state := true } 2 readLow).1
    (output_blink_central cfg0
      { active_profile_connected := true, active_profile_open := false })
    (by simp [led_output_listener_cb_central])

end LedWidget
